import Mathlib

/-!
# fake_webcam: frame pacing, delivery, format negotiation and module start-up

A shallow embedding of `src/fake_webcam/fake_webcam.c`.  Kernel entry points the
driver calls (`do_gettimeofday`, `schedule_timeout_interruptible`,
`vb2_buffer_done`, `v4l2_device_register`, ...) are not part of the driver: their
results are inputs of the embedded functions and the calls the driver makes are
recorded as a trace, in program order.

Machine integers are natural numbers or integers; `u64` arithmetic is reduced
modulo `2 ^ 64` where the C code can wrap.
-/

namespace FakeWebcam

/-! ## Data model -/

/-- Modulus of the C type `u64`. -/
def U64_MOD : Nat := 2 ^ 64

/-- The kernel's `enum vb2_buffer_state` (videobuf2-core.h). -/
inductive vb2_buffer_state where
  | VB2_BUF_STATE_DEQUEUED
  | VB2_BUF_STATE_PREPARING
  | VB2_BUF_STATE_PREPARED
  | VB2_BUF_STATE_QUEUED
  | VB2_BUF_STATE_REQUEUEING
  | VB2_BUF_STATE_ACTIVE
  | VB2_BUF_STATE_DONE
  | VB2_BUF_STATE_ERROR
  deriving DecidableEq, Repr

/-- The fields of the kernel's `struct vb2_buffer` the driver reads or writes:
its index in the queue, its state and its `u64 timestamp` (the target time). -/
structure vb2_buffer where
  index : Nat
  state : vb2_buffer_state
  timestamp : Nat
  deriving DecidableEq, Repr

/-- The frame-timing part of `struct fw_info` (lines 17-27): the C `int`
`is_first_frame` (any non-zero value is true) and the `u64 next_time`. -/
structure fw_info where
  is_first_frame : Int
  next_time : Nat
  deriving DecidableEq, Repr

/-! ## Frame pacing (lines 228-241, 258-269) -/

/-- `fw_vb2_start_streaming` (lines 228-231): sets `is_first_frame`, leaves
`next_time` as it is and returns 0. -/
def fw_vb2_start_streaming (info : fw_info) : fw_info × Int :=
  ({ info with is_first_frame := 1 }, 0)

/-- `fw_vb2_buf_queue` (lines 258-269).  `nanotime` is the value the call
`fw_get_nanotime()` on line 259 returned.  The result is the updated timing
state and the stamped buffer, which line 268 hands to a new kernel thread
running `fw_ship_buffer_thread`. -/
def fw_vb2_buf_queue (nanotime : Nat) (info : fw_info) (buffer : vb2_buffer) :
    fw_info × vb2_buffer :=
  let info1 : fw_info :=
    if info.is_first_frame ≠ 0 then
      { is_first_frame := 0, next_time := nanotime }
    else if info.next_time < nanotime then
      { info with next_time := nanotime }
    else
      info
  (info1, { buffer with timestamp := info1.next_time })

/-- A streaming session seen by the pacing code: the enqueues
`fw_vb2_buf_queue` performs, in order, on the buffers paired with the clock
reading of each enqueue.  Returns the final timing state and the stamped
buffers in enqueue order. -/
def enqueue_all : fw_info → List (Nat × vb2_buffer) → fw_info × List vb2_buffer
  | info, [] => (info, [])
  | info, (nanotime, buffer) :: rest =>
    let r := fw_vb2_buf_queue nanotime info buffer
    let rs := enqueue_all r.1 rest
    (rs.1, r.2 :: rs.2)

/-! ## Delivery task (lines 243-256) -/

/-- The kernel's `NSEC_PER_SEC`. -/
def NSEC_PER_SEC : Nat := 1000000000

/-- The kernel's `nsecs_to_jiffies64` (kernel/time/time.c), which the driver
calls on line 249; it is kernel code, not part of the driver.  `HZ` is the
kernel's tick rate, a build-time constant.  The three cases are the kernel's
`#if` ladder; every product is a `u64` product and every quotient rounds down. -/
def nsecs_to_jiffies64 (HZ n : Nat) : Nat :=
  if NSEC_PER_SEC % HZ = 0 then
    n / (NSEC_PER_SEC / HZ)
  else if HZ % 512 = 0 then
    (((n * HZ) % U64_MOD) / 512) / (NSEC_PER_SEC / 512)
  else
    ((n * 9) % U64_MOD) / ((9 * NSEC_PER_SEC + HZ / 2) / HZ)

/-- The kernel's `vb2_buffer_done(vb, state)`: the buffer takes the state the
driver passes (and waiters on the queue are woken). -/
def vb2_buffer_done (vb : vb2_buffer) (state : vb2_buffer_state) : vb2_buffer :=
  { vb with state := state }

/-- The kernel calls `fw_ship_buffer_thread` makes.  A
`schedule_timeout_interruptible` call is recorded with the number of jiffies
asked for and the value the kernel returned: the jiffies that were left when the
task was woken, 0 when the wait ran to its timeout. -/
inductive ship_call where
  | schedule_timeout_interruptible (timeout : Nat) (returned : Nat)
  | vb2_buffer_done (index : Nat) (state : vb2_buffer_state)
  | do_exit (code : Int)
  deriving DecidableEq, Repr

/-- `fw_ship_buffer_thread` (lines 243-256).  `nanotime` is the value the call
`fw_get_nanotime()` on line 246 returned and `returned` is what
`schedule_timeout_interruptible` returns if it is called (the C code discards
it).  The result is the trace of kernel calls in program order and the buffer as
`vb2_buffer_done` leaves it. -/
def fw_ship_buffer_thread (HZ nanotime returned : Nat) (buffer : vb2_buffer) :
    List ship_call × vb2_buffer :=
  let waits : List ship_call :=
    if nanotime < buffer.timestamp then
      [ship_call.schedule_timeout_interruptible
        (nsecs_to_jiffies64 HZ ((buffer.timestamp - nanotime) % U64_MOD)) returned]
    else
      []
  (waits ++ [ship_call.vb2_buffer_done buffer.index vb2_buffer_state.VB2_BUF_STATE_DONE,
             ship_call.do_exit 0],
   vb2_buffer_done buffer vb2_buffer_state.VB2_BUF_STATE_DONE)

/-- Nanoseconds that `j` ticks of a `HZ`-per-second tick last, rounded up. -/
def jiffies_to_nsecs_up (HZ j : Nat) : Nat :=
  (j * NSEC_PER_SEC + (HZ - 1)) / HZ

/-- Time a recorded kernel call takes: a timed wait asked for `timeout` jiffies
that returned with `returned` jiffies left has slept `timeout - returned`
ticks; the other calls take no time. -/
def call_nsecs (HZ : Nat) : ship_call → Nat
  | ship_call.schedule_timeout_interruptible timeout returned =>
    jiffies_to_nsecs_up HZ (timeout - returned)
  | _ => 0

/-- Whether a recorded call is `vb2_buffer_done`. -/
def is_buffer_done : ship_call → Bool
  | ship_call.vb2_buffer_done _ _ => true
  | _ => false

/-- Clock reading at which the delivery task reaches `vb2_buffer_done`: the
reading it started with plus the time of the calls that precede
`vb2_buffer_done` in its trace. -/
def fw_ship_done_clock (HZ nanotime returned : Nat) (buffer : vb2_buffer) : Nat :=
  nanotime +
    (((fw_ship_buffer_thread HZ nanotime returned buffer).1.takeWhile
        (fun c => !is_buffer_done c)).map (call_nsecs HZ)).sum

/-! ## Format negotiation and queue setup (lines 60-112, 209-218) -/

/-- Modulus of the C type `u32` (`__u32`, `unsigned int`). -/
def U32_MOD : Nat := 2 ^ 32

/-- Conversion of a C `int` to `u32`. -/
def to_u32 (x : Int) : Nat := (x % (U32_MOD : Int)).toNat

/-- The kernel's `V4L2_PIX_FMT_YUYV`, `v4l2_fourcc('Y', 'U', 'Y', 'V')`. -/
def V4L2_PIX_FMT_YUYV : Nat := 0x56595559

/-- The kernel's `V4L2_FIELD_INTERLACED`. -/
def V4L2_FIELD_INTERLACED : Int := 4

/-- The kernel's `V4L2_COLORSPACE_SMPTE170M`. -/
def V4L2_COLORSPACE_SMPTE170M : Int := 1

/-- The kernel's `EINVAL`. -/
def EINVAL : Int := 22

/-- The kernel's `ENOMEM`. -/
def ENOMEM : Int := 12

/-- Line 61. -/
def fw_fmt_pixelformat : Nat := V4L2_PIX_FMT_YUYV

/-- Line 62. -/
def fw_fmt_depth : Int := 16

/-- Line 63. -/
def fw_fmt_width : Int := 640

/-- Line 64. -/
def fw_fmt_height : Int := 480

/-- Line 65. -/
def fw_fmt_field : Int := V4L2_FIELD_INTERLACED

/-- Line 66. -/
def fw_fmt_colorspace : Int := V4L2_COLORSPACE_SMPTE170M

/-- The kernel's `struct v4l2_pix_format`; every field is a `__u32`. -/
structure v4l2_pix_format where
  width : Nat
  height : Nat
  pixelformat : Nat
  field : Nat
  bytesperline : Nat
  sizeimage : Nat
  colorspace : Nat
  priv : Nat
  flags : Nat
  ycbcr_enc : Nat
  quantization : Nat
  xfer_func : Nat
  deriving DecidableEq, Repr

/-- The kernel's `struct v4l2_format`, with the `pix` member of its union. -/
structure v4l2_format where
  type : Nat
  pix : v4l2_pix_format
  deriving DecidableEq, Repr

/-- `fw_vidioc_g_fmt_vid_cap` (lines 92-103): the format as the function leaves
it, and the return value. -/
def fw_vidioc_g_fmt_vid_cap (fmt : v4l2_format) : v4l2_format × Int :=
  let bytesperline := to_u32 ((fw_fmt_width * fw_fmt_depth) / 8)
  ({ fmt with
      pix := { fmt.pix with
        width := to_u32 fw_fmt_width
        height := to_u32 fw_fmt_height
        field := to_u32 fw_fmt_field
        pixelformat := fw_fmt_pixelformat
        bytesperline := bytesperline
        sizeimage := (to_u32 fw_fmt_height * bytesperline) % U32_MOD
        colorspace := to_u32 fw_fmt_colorspace } },
   0)

/-- `fw_vidioc_try_fmt_vid_cap` (lines 105-112). -/
def fw_vidioc_try_fmt_vid_cap (fmt : v4l2_format) : v4l2_format × Int :=
  if fmt.pix.pixelformat ≠ fw_fmt_pixelformat then
    (fmt, -EINVAL)
  else
    fw_vidioc_g_fmt_vid_cap fmt

/-- The `.vidioc_s_fmt_vid_cap` entry of `fw_ioctl_ops` (line 183). -/
def vidioc_s_fmt_vid_cap : v4l2_format → v4l2_format × Int :=
  fw_vidioc_try_fmt_vid_cap

/-- The `.vidioc_try_fmt_vid_cap` entry of `fw_ioctl_ops` (line 184). -/
def vidioc_try_fmt_vid_cap : v4l2_format → v4l2_format × Int :=
  fw_vidioc_try_fmt_vid_cap

/-- What `fw_vb2_queue_setup` leaves behind its pointer arguments, and its
return value.  `sizes` is the caller's array, indexed from 0. -/
structure queue_setup_result where
  nbuffers : Nat
  nplanes : Nat
  sizes : Nat → Nat
  ret : Int

/-- `fw_vb2_queue_setup` (lines 209-218).  `nbuffers` and `nplanes` are the
values the caller stored behind the pointers before the call. -/
def fw_vb2_queue_setup (_nbuffers _nplanes : Nat) (sizes : Nat → Nat) :
    queue_setup_result :=
  { nbuffers := 4
    nplanes := 1
    sizes := fun i =>
      if i = 0 then to_u32 ((fw_fmt_width * fw_fmt_height * fw_fmt_depth) / 8) else sizes i
    ret := 0 }

/-! ## Module start-up (lines 282-331) -/

/-- The kernel calls `fw_init` makes.  The calls whose result the code tests
are recorded with that result. -/
inductive init_call where
  | memset
  | mutex_init
  | strncpy
  | v4l2_device_register (res : Int)
  | vb2_queue_init
  | video_device_alloc (non_null : Bool)
  | video_register_device_no_warn (res : Int)
  | video_device_release
  | v4l2_device_unregister
  | vb2_queue_release
  deriving DecidableEq, Repr

/-- `fw_init` (lines 282-331).  The arguments are what the three kernel calls
whose result the code tests return if they are reached:
`v4l2_device_register` (an `int`), `video_device_alloc` (whether the pointer is
non-NULL) and `video_register_device_no_warn` (an `int`).  The result is the
return value and the trace of kernel calls in program order; the `goto` labels
`fail_device_free`, `fail_unregister` and `fail` fall through to one another. -/
def fw_init (register_res : Int) (alloc_non_null : Bool) (video_register_res : Int) :
    Int × List init_call :=
  let t1 := [init_call.memset, init_call.mutex_init, init_call.strncpy,
             init_call.v4l2_device_register register_res]
  if register_res ≠ 0 then
    (register_res, t1)
  else
    let t2 := t1 ++ [init_call.vb2_queue_init, init_call.video_device_alloc alloc_non_null]
    if !alloc_non_null then
      (-ENOMEM, t2 ++ [init_call.v4l2_device_unregister, init_call.vb2_queue_release])
    else
      let t3 := t2 ++ [init_call.strncpy,
                       init_call.video_register_device_no_warn video_register_res]
      if video_register_res < 0 then
        (video_register_res,
          t3 ++ [init_call.video_device_release, init_call.v4l2_device_unregister,
                 init_call.vb2_queue_release])
      else
        (0, t3)

/-- The resources `fw_init` holds. -/
inductive resource where
  | parent_dev
  | queue
  | video_dev
  deriving DecidableEq, Repr

/-- Resources acquired by a trace of `fw_init`, in order of acquisition: the
parent device by a `v4l2_device_register` that returned 0, the buffer queue by
`vb2_queue_init`, the video device by a `video_device_alloc` that returned a
non-NULL pointer. -/
def acquired : List init_call → List resource
  | [] => []
  | init_call.v4l2_device_register res :: rest =>
    if res = 0 then resource.parent_dev :: acquired rest else acquired rest
  | init_call.vb2_queue_init :: rest => resource.queue :: acquired rest
  | init_call.video_device_alloc non_null :: rest =>
    if non_null then resource.video_dev :: acquired rest else acquired rest
  | _ :: rest => acquired rest

/-- Resources released by a trace of `fw_init`, in order of release. -/
def released : List init_call → List resource
  | [] => []
  | init_call.video_device_release :: rest => resource.video_dev :: released rest
  | init_call.v4l2_device_unregister :: rest => resource.parent_dev :: released rest
  | init_call.vb2_queue_release :: rest => resource.queue :: released rest
  | _ :: rest => released rest

/-! ## Frame pacing: properties -/

/-- Enqueue on a state whose `is_first_frame` is set. -/
theorem buf_queue_of_first (t : Nat) (info : fw_info) (b : vb2_buffer)
    (h : info.is_first_frame ≠ 0) :
    fw_vb2_buf_queue t info b
      = ({ is_first_frame := 0, next_time := t }, { b with timestamp := t }) := by
  simp [fw_vb2_buf_queue, h]

/-- Enqueue on a state whose `is_first_frame` is clear. -/
theorem buf_queue_of_later (t : Nat) (info : fw_info) (b : vb2_buffer)
    (h : info.is_first_frame = 0) :
    fw_vb2_buf_queue t info b
      = ({ is_first_frame := 0, next_time := max info.next_time t },
         { b with timestamp := max info.next_time t }) := by
  obtain ⟨f, n⟩ := info
  simp only at h
  subst h
  by_cases hlt : n < t
  · simp [fw_vb2_buf_queue, hlt, max_eq_right (le_of_lt hlt)]
  · simp [fw_vb2_buf_queue, hlt, max_eq_left (not_lt.mp hlt)]

/-- Every enqueue leaves `is_first_frame` clear. -/
theorem buf_queue_clears_first (t : Nat) (info : fw_info) (b : vb2_buffer) :
    (fw_vb2_buf_queue t info b).1.is_first_frame = 0 := by
  by_cases h : info.is_first_frame = 0
  · rw [buf_queue_of_later t info b h]
  · rw [buf_queue_of_first t info b h]

/-- Every enqueue stamps the buffer with the new `next_time`. -/
theorem buf_queue_stamp (t : Nat) (info : fw_info) (b : vb2_buffer) :
    (fw_vb2_buf_queue t info b).2.timestamp = (fw_vb2_buf_queue t info b).1.next_time := by
  simp [fw_vb2_buf_queue]

/-- The stamp of an enqueue is not below its clock reading. -/
theorem buf_queue_ge_clock (t : Nat) (info : fw_info) (b : vb2_buffer) :
    t ≤ (fw_vb2_buf_queue t info b).2.timestamp := by
  by_cases h : info.is_first_frame = 0
  · rw [buf_queue_of_later t info b h]
    exact le_max_right _ _
  · rw [buf_queue_of_first t info b h]

/-- Targets of a run of enqueues that starts with `is_first_frame` clear: each
is the maximum of the target before it and its own clock reading, so the
targets form a chain from the initial `next_time`, and none is below its clock
reading. -/
theorem enqueue_all_of_later (qs : List (Nat × vb2_buffer)) :
    ∀ info : fw_info, info.is_first_frame = 0 →
      (enqueue_all info qs).2.map vb2_buffer.timestamp
          = List.zipWith max
              (info.next_time :: (enqueue_all info qs).2.map vb2_buffer.timestamp)
              (qs.map Prod.fst)
        ∧ List.Chain (· ≤ ·) info.next_time
            ((enqueue_all info qs).2.map vb2_buffer.timestamp)
        ∧ List.Forall₂ (· ≤ ·) (qs.map Prod.fst)
            ((enqueue_all info qs).2.map vb2_buffer.timestamp) := by
  induction qs with
  | nil => intro info _; simp [enqueue_all]
  | cons q rest ih =>
    intro info h
    obtain ⟨t, b⟩ := q
    have hstep := buf_queue_of_later t info b h
    have ih1 := ih (fw_vb2_buf_queue t info b).1 (buf_queue_clears_first t info b)
    rw [hstep] at ih1
    obtain ⟨hz, hc, hf⟩ := ih1
    simp only [enqueue_all, hstep, List.map_cons, List.zipWith_cons_cons]
    refine ⟨?_, ?_, ?_⟩
    · exact congrArg _ hz
    · exact List.Chain.cons (le_max_left _ _) hc
    · exact List.Forall₂.cons (le_max_right _ _) hf

/-- C1: for every timing state (any stale `next_time`, any `is_first_frame`) and
every clock reading `t`, `fw_vb2_start_streaming` returns 0 and the first
enqueue after it, read at `t`, stamps the buffer with `t`, sets `next_time` to
`t` and clears `is_first_frame`; a delivery task that reads the clock at `t` or
at any later reading `t + d` then makes no timed wait: it calls
`vb2_buffer_done` at once. -/
theorem first_enqueue_after_start (info : fw_info) (buffer : vb2_buffer) (t : Nat) :
    (fw_vb2_start_streaming info).2 = 0
      ∧ (fw_vb2_buf_queue t (fw_vb2_start_streaming info).1 buffer).2.timestamp = t
      ∧ (fw_vb2_buf_queue t (fw_vb2_start_streaming info).1 buffer).1.next_time = t
      ∧ (fw_vb2_buf_queue t (fw_vb2_start_streaming info).1 buffer).1.is_first_frame = 0
      ∧ ∀ HZ d returned : Nat,
          (fw_ship_buffer_thread HZ (t + d) returned
              (fw_vb2_buf_queue t (fw_vb2_start_streaming info).1 buffer).2).1
            = [ship_call.vb2_buffer_done buffer.index vb2_buffer_state.VB2_BUF_STATE_DONE,
               ship_call.do_exit 0]
          ∧ fw_ship_done_clock HZ (t + d) returned
              (fw_vb2_buf_queue t (fw_vb2_start_streaming info).1 buffer).2 = t + d := by
  have hstep : fw_vb2_buf_queue t (fw_vb2_start_streaming info).1 buffer
      = ({ is_first_frame := 0, next_time := t }, { buffer with timestamp := t }) :=
    buf_queue_of_first t _ buffer (by simp [fw_vb2_start_streaming])
  rw [hstep]
  refine ⟨rfl, rfl, rfl, rfl, ?_⟩
  intro HZ d returned
  simp [fw_ship_buffer_thread, fw_ship_done_clock, is_buffer_done]

/-- C2, as stated, fails: after `fw_vb2_start_streaming`, B1 is enqueued at
clock 1700000000000000000 and its delivery task starts at
1700000000000005000, so B1 becomes ready at that reading; B2 is enqueued at
1700000000000001000, before B1 is ready, and its target is its own clock
reading, not B1's target, and `next_time` has moved. -/
theorem burst_before_ready_counterexample :
    1700000000000001000
        < fw_ship_done_clock 1000 1700000000000005000 0
            (fw_vb2_buf_queue 1700000000000000000
              (fw_vb2_start_streaming { is_first_frame := 0, next_time := 0 }).1
              { index := 0, state := vb2_buffer_state.VB2_BUF_STATE_ACTIVE, timestamp := 0 }).2
      ∧ (fw_vb2_buf_queue 1700000000000001000
            (fw_vb2_buf_queue 1700000000000000000
              (fw_vb2_start_streaming { is_first_frame := 0, next_time := 0 }).1
              { index := 0, state := vb2_buffer_state.VB2_BUF_STATE_ACTIVE, timestamp := 0 }).1
            { index := 1, state := vb2_buffer_state.VB2_BUF_STATE_ACTIVE, timestamp := 0 }).2.timestamp
          = 1700000000000001000
      ∧ (fw_vb2_buf_queue 1700000000000000000
            (fw_vb2_start_streaming { is_first_frame := 0, next_time := 0 }).1
            { index := 0, state := vb2_buffer_state.VB2_BUF_STATE_ACTIVE, timestamp := 0 }).2.timestamp
          = 1700000000000000000
      ∧ (fw_vb2_buf_queue 1700000000000001000
            (fw_vb2_buf_queue 1700000000000000000
              (fw_vb2_start_streaming { is_first_frame := 0, next_time := 0 }).1
              { index := 0, state := vb2_buffer_state.VB2_BUF_STATE_ACTIVE, timestamp := 0 }).1
            { index := 1, state := vb2_buffer_state.VB2_BUF_STATE_ACTIVE, timestamp := 0 }).1.next_time
          ≠ (fw_vb2_buf_queue 1700000000000000000
              (fw_vb2_start_streaming { is_first_frame := 0, next_time := 0 }).1
              { index := 0, state := vb2_buffer_state.VB2_BUF_STATE_ACTIVE, timestamp := 0 }).1.next_time := by
  simp [fw_vb2_buf_queue, fw_vb2_start_streaming, fw_ship_done_clock, fw_ship_buffer_thread,
    is_buffer_done]

/-- C2, amended: whatever the timing state before B1's enqueue, when B2 is the
next enqueue and its clock reading `t1` is not above B1's target time, B2's
target equals B1's target and the timing state (`next_time` and
`is_first_frame`) is left unchanged; and in every branch of every enqueue the
new `next_time` is either the old `next_time` or the clock reading: no frame
interval is added. -/
theorem burst_shares_target (info : fw_info) (b1 b2 : vb2_buffer) (t0 t1 : Nat)
    (h : t1 ≤ (fw_vb2_buf_queue t0 info b1).2.timestamp) :
    (fw_vb2_buf_queue t1 (fw_vb2_buf_queue t0 info b1).1 b2).2.timestamp
        = (fw_vb2_buf_queue t0 info b1).2.timestamp
      ∧ (fw_vb2_buf_queue t1 (fw_vb2_buf_queue t0 info b1).1 b2).1
        = (fw_vb2_buf_queue t0 info b1).1
      ∧ ∀ (t : Nat) (i : fw_info) (b : vb2_buffer),
          (fw_vb2_buf_queue t i b).1.next_time = i.next_time
            ∨ (fw_vb2_buf_queue t i b).1.next_time = t := by
  refine ⟨?_, ?_, ?_⟩
  · rw [buf_queue_of_later t1 _ b2 (buf_queue_clears_first t0 info b1)]
    rw [buf_queue_stamp] at h
    simp only
    rw [buf_queue_stamp]
    exact max_eq_left h
  · rw [buf_queue_of_later t1 _ b2 (buf_queue_clears_first t0 info b1)]
    rw [buf_queue_stamp] at h
    simp only [max_eq_left h]
    have h0 := buf_queue_clears_first t0 info b1
    generalize (fw_vb2_buf_queue t0 info b1).1 = s at h0 ⊢
    obtain ⟨f, n⟩ := s
    simp only at h0
    subst h0
    rfl
  · intro t i b
    by_cases hf : i.is_first_frame = 0
    · rw [buf_queue_of_later t i b hf]
      simp only
      rcases le_total i.next_time t with hle | hle
      · right; exact max_eq_right hle
      · left; exact max_eq_left hle
    · rw [buf_queue_of_first t i b hf]
      right; rfl

/-- Witness for C2 (amended): B1 and B2 enqueued in the same clock tick right
after `fw_vb2_start_streaming`. -/
theorem burst_shares_target_witness :
    (fw_vb2_buf_queue 1700000000000000000
        (fw_vb2_buf_queue 1700000000000000000 { is_first_frame := 1, next_time := 0 }
          { index := 0, state := vb2_buffer_state.VB2_BUF_STATE_ACTIVE, timestamp := 0 }).1
        { index := 1, state := vb2_buffer_state.VB2_BUF_STATE_ACTIVE, timestamp := 0 }).2.timestamp
      = (fw_vb2_buf_queue 1700000000000000000 { is_first_frame := 1, next_time := 0 }
          { index := 0, state := vb2_buffer_state.VB2_BUF_STATE_ACTIVE, timestamp := 0 }).2.timestamp :=
  (burst_shares_target { is_first_frame := 1, next_time := 0 }
    { index := 0, state := vb2_buffer_state.VB2_BUF_STATE_ACTIVE, timestamp := 0 }
    { index := 1, state := vb2_buffer_state.VB2_BUF_STATE_ACTIVE, timestamp := 0 }
    1700000000000000000 1700000000000000000
    (by simp [fw_vb2_buf_queue])).1

/-- C3: for every timing state, whether or not `is_first_frame` is set, an
enqueue whose clock reading `t2` is strictly above the previous `next_time`
stamps the buffer with `t2` and sets `next_time` to `t2`. -/
theorem catch_up_enqueue (info : fw_info) (buffer : vb2_buffer) (t2 : Nat)
    (h : info.next_time < t2) :
    (fw_vb2_buf_queue t2 info buffer).2.timestamp = t2
      ∧ (fw_vb2_buf_queue t2 info buffer).1.next_time = t2 := by
  by_cases hf : info.is_first_frame = 0
  · rw [buf_queue_of_later t2 info buffer hf]
    exact ⟨max_eq_right (le_of_lt h), max_eq_right (le_of_lt h)⟩
  · rw [buf_queue_of_first t2 info buffer hf]
    exact ⟨rfl, rfl⟩

/-- Witness for C3: `is_first_frame` clear, `next_time` one microsecond behind
the clock. -/
theorem catch_up_enqueue_witness :
    (fw_vb2_buf_queue 1700000000000001000
        { is_first_frame := 0, next_time := 1700000000000000000 }
        { index := 2, state := vb2_buffer_state.VB2_BUF_STATE_ACTIVE, timestamp := 0 }).2.timestamp
        = 1700000000000001000
      ∧ (fw_vb2_buf_queue 1700000000000001000
        { is_first_frame := 0, next_time := 1700000000000000000 }
        { index := 2, state := vb2_buffer_state.VB2_BUF_STATE_ACTIVE, timestamp := 0 }).1.next_time
        = 1700000000000001000 :=
  catch_up_enqueue { is_first_frame := 0, next_time := 1700000000000000000 }
    { index := 2, state := vb2_buffer_state.VB2_BUF_STATE_ACTIVE, timestamp := 0 }
    1700000000000001000 (by decide)

/-- C10: for every timing state and every sequence of enqueues with arbitrary
clock readings (no `fw_vb2_start_streaming` in between): each enqueue stamps
its buffer with the `next_time` it leaves, and that stamp is not below the
enqueue's clock reading; the targets are non-decreasing in enqueue order
whatever the clock does; every target after the first is the maximum of the
target before it (the previous `next_time`) and its own clock reading; one
buffer is stamped per enqueue; and when the sequence follows
`fw_vb2_start_streaming` the first target is the first clock reading. -/
theorem targets_monotone (info : fw_info) (qs : List (Nat × vb2_buffer)) :
    (∀ (t : Nat) (i : fw_info) (b : vb2_buffer),
        (fw_vb2_buf_queue t i b).2.timestamp = (fw_vb2_buf_queue t i b).1.next_time
          ∧ t ≤ (fw_vb2_buf_queue t i b).2.timestamp)
      ∧ List.Forall₂ (· ≤ ·) (qs.map Prod.fst)
          ((enqueue_all info qs).2.map vb2_buffer.timestamp)
      ∧ List.Pairwise (· ≤ ·) ((enqueue_all info qs).2.map vb2_buffer.timestamp)
      ∧ ((enqueue_all info qs).2.map vb2_buffer.timestamp).tail
          = List.zipWith max ((enqueue_all info qs).2.map vb2_buffer.timestamp)
              (qs.map Prod.fst).tail
      ∧ (enqueue_all info qs).2.length = qs.length
      ∧ ((enqueue_all (fw_vb2_start_streaming info).1 qs).2.map vb2_buffer.timestamp).head?
          = (qs.map Prod.fst).head? := by
  refine ⟨fun t i b => ⟨buf_queue_stamp t i b, buf_queue_ge_clock t i b⟩, ?_⟩
  cases qs with
  | nil => simp [enqueue_all]
  | cons q rest =>
    obtain ⟨t, b⟩ := q
    obtain ⟨hz, hc, hf⟩ :=
      enqueue_all_of_later rest (fw_vb2_buf_queue t info b).1 (buf_queue_clears_first t info b)
    rw [← buf_queue_stamp] at hz hc
    have hlen := List.Forall₂.length_eq hf
    simp only [List.length_map] at hlen
    refine ⟨?_, ?_, ?_, ?_, ?_⟩
    · simp only [enqueue_all, List.map_cons]
      exact List.Forall₂.cons (buf_queue_ge_clock t info b) hf
    · simp only [enqueue_all, List.map_cons]
      have hc1 : List.Chain' (· ≤ ·)
          ((fw_vb2_buf_queue t info b).2.timestamp ::
            (enqueue_all (fw_vb2_buf_queue t info b).1 rest).2.map vb2_buffer.timestamp) := hc
      exact List.chain'_iff_pairwise.mp hc1
    · simp only [enqueue_all, List.map_cons, List.tail_cons]
      exact hz
    · simp only [enqueue_all, List.length_cons, hlen]
    · simp only [enqueue_all, List.map_cons, List.head?_cons]
      rw [buf_queue_of_first t _ b (by simp [fw_vb2_start_streaming])]

/-! ## Delivery task: properties -/

/-- C5, as stated, fails: at tick rate 1000 a delivery task that starts
5000000 ns before its buffer's target asks for a wait of 5 jiffies; woken with
3 jiffies left, it still calls `vb2_buffer_done` with `VB2_BUF_STATE_DONE`,
3000000 ns before the target, and the buffer ends in the done state. -/
theorem ship_woken_early_counterexample :
    (fw_ship_buffer_thread 1000 1700000000000000000 3
        { index := 2, state := vb2_buffer_state.VB2_BUF_STATE_ACTIVE,
          timestamp := 1700000000005000000 }).1
      = [ship_call.schedule_timeout_interruptible 5 3,
         ship_call.vb2_buffer_done 2 vb2_buffer_state.VB2_BUF_STATE_DONE,
         ship_call.do_exit 0]
    ∧ (fw_ship_buffer_thread 1000 1700000000000000000 3
        { index := 2, state := vb2_buffer_state.VB2_BUF_STATE_ACTIVE,
          timestamp := 1700000000005000000 }).2.state
      = vb2_buffer_state.VB2_BUF_STATE_DONE
    ∧ fw_ship_done_clock 1000 1700000000000000000 3
        { index := 2, state := vb2_buffer_state.VB2_BUF_STATE_ACTIVE,
          timestamp := 1700000000005000000 } = 1700000000002000000 := by
  simp [fw_ship_buffer_thread, fw_ship_done_clock, is_buffer_done, call_nsecs,
    jiffies_to_nsecs_up, nsecs_to_jiffies64, NSEC_PER_SEC, U64_MOD, vb2_buffer_done]

/-- C5, amended: for every tick rate, every buffer, every clock reading at
which its delivery task starts and every value the interruptible wait returns
(0 at its timeout, the jiffies left when woken early), the task makes at most
one timed wait, then calls `vb2_buffer_done` with `VB2_BUF_STATE_DONE` exactly
once, then exits; the buffer ends in the done state with its index and target
unchanged.  The task has no path that leaves the buffer in another state. -/
theorem ship_always_done (HZ nanotime returned : Nat) (buffer : vb2_buffer) :
    (fw_ship_buffer_thread HZ nanotime returned buffer).2
        = { buffer with state := vb2_buffer_state.VB2_BUF_STATE_DONE }
      ∧ (fw_ship_buffer_thread HZ nanotime returned buffer).1.filter is_buffer_done
        = [ship_call.vb2_buffer_done buffer.index vb2_buffer_state.VB2_BUF_STATE_DONE]
      ∧ ((fw_ship_buffer_thread HZ nanotime returned buffer).1
          = [ship_call.vb2_buffer_done buffer.index vb2_buffer_state.VB2_BUF_STATE_DONE,
             ship_call.do_exit 0]
        ∨ (fw_ship_buffer_thread HZ nanotime returned buffer).1
          = [ship_call.schedule_timeout_interruptible
               (nsecs_to_jiffies64 HZ ((buffer.timestamp - nanotime) % U64_MOD)) returned,
             ship_call.vb2_buffer_done buffer.index vb2_buffer_state.VB2_BUF_STATE_DONE,
             ship_call.do_exit 0]) := by
  by_cases h : nanotime < buffer.timestamp
  · simp [fw_ship_buffer_thread, h, is_buffer_done, vb2_buffer_done]
  · simp [fw_ship_buffer_thread, h, is_buffer_done, vb2_buffer_done]

/-! ## Format negotiation and queue setup: properties -/

/-- C6: for every requested buffer count and plane count and every content of
the caller's size array, `fw_vb2_queue_setup` returns 0 and leaves
`nbuffers = 4`, `nplanes = 1` and `sizes[0] = 614400`, which is
`640 * 480 * 2`, the product of the format width, height and bytes per pixel;
the other entries of the size array are left as they were. -/
theorem queue_setup_fixed (nbuffers nplanes : Nat) (sizes : Nat → Nat) :
    (fw_vb2_queue_setup nbuffers nplanes sizes).ret = 0
      ∧ (fw_vb2_queue_setup nbuffers nplanes sizes).nbuffers = 4
      ∧ (fw_vb2_queue_setup nbuffers nplanes sizes).nplanes = 1
      ∧ (fw_vb2_queue_setup nbuffers nplanes sizes).sizes 0 = 614400
      ∧ (614400 : Nat) = 640 * 480 * 2
      ∧ ((fw_vb2_queue_setup nbuffers nplanes sizes).sizes 0 : Int)
          = fw_fmt_width * fw_fmt_height * (fw_fmt_depth / 8)
      ∧ ∀ i : Nat, (fw_vb2_queue_setup nbuffers nplanes sizes).sizes (i + 1) = sizes (i + 1) := by
  simp [fw_vb2_queue_setup, to_u32, U32_MOD, fw_fmt_width, fw_fmt_height, fw_fmt_depth]

/-- C7: for every requested format, the handler of try-format and set-format
(both entries of the ioctl table are `fw_vidioc_try_fmt_vid_cap`) returns
`-EINVAL` exactly when the requested pixel encoding is not the supported one,
and then leaves the request unchanged; otherwise it returns 0 and leaves
exactly what `fw_vidioc_g_fmt_vid_cap` leaves on the same request, whatever
width and height were asked for: width 640, height 480, interlaced field
order, the supported encoding, bytes-per-line 1280 = 640 * 2 and image size
614400 = 480 * 1280, the plane size `fw_vb2_queue_setup` reports. -/
theorem try_fmt_contract (fmt : v4l2_format) :
    vidioc_s_fmt_vid_cap fmt = fw_vidioc_try_fmt_vid_cap fmt
      ∧ vidioc_try_fmt_vid_cap fmt = fw_vidioc_try_fmt_vid_cap fmt
      ∧ ((fw_vidioc_try_fmt_vid_cap fmt).2 = -EINVAL
          ↔ fmt.pix.pixelformat ≠ fw_fmt_pixelformat)
      ∧ ((fmt.pix.pixelformat ≠ fw_fmt_pixelformat
            ∧ fw_vidioc_try_fmt_vid_cap fmt = (fmt, -EINVAL))
          ∨ (fmt.pix.pixelformat = fw_fmt_pixelformat
            ∧ fw_vidioc_try_fmt_vid_cap fmt = fw_vidioc_g_fmt_vid_cap fmt
            ∧ (fw_vidioc_try_fmt_vid_cap fmt).2 = 0))
      ∧ (fw_vidioc_g_fmt_vid_cap fmt).2 = 0
      ∧ (fw_vidioc_g_fmt_vid_cap fmt).1
          = { fmt with
              pix := { fmt.pix with
                width := 640
                height := 480
                field := 4
                pixelformat := 0x56595559
                bytesperline := 1280
                sizeimage := 614400
                colorspace := 1 } }
      ∧ (V4L2_FIELD_INTERLACED = 4 ∧ (1280 : Nat) = 640 * 2 ∧ (614400 : Nat) = 480 * 1280)
      ∧ ∀ (nbuffers nplanes : Nat) (sizes : Nat → Nat),
          (fw_vidioc_g_fmt_vid_cap fmt).1.pix.sizeimage
            = (fw_vb2_queue_setup nbuffers nplanes sizes).sizes 0 := by
  have hg : (fw_vidioc_g_fmt_vid_cap fmt).1
      = { fmt with
          pix := { fmt.pix with
            width := 640
            height := 480
            field := 4
            pixelformat := 0x56595559
            bytesperline := 1280
            sizeimage := 614400
            colorspace := 1 } } := by
    simp [fw_vidioc_g_fmt_vid_cap, to_u32, U32_MOD, fw_fmt_width, fw_fmt_height,
      fw_fmt_depth, fw_fmt_field, fw_fmt_colorspace, fw_fmt_pixelformat, V4L2_PIX_FMT_YUYV,
      V4L2_FIELD_INTERLACED, V4L2_COLORSPACE_SMPTE170M]
  refine ⟨rfl, rfl, ?_, ?_, rfl, hg, ⟨rfl, rfl, rfl⟩, ?_⟩
  · by_cases h : fmt.pix.pixelformat = fw_fmt_pixelformat
    · simp [fw_vidioc_try_fmt_vid_cap, h, fw_vidioc_g_fmt_vid_cap, EINVAL]
    · simp [fw_vidioc_try_fmt_vid_cap, h]
  · by_cases h : fmt.pix.pixelformat = fw_fmt_pixelformat
    · right
      simp [fw_vidioc_try_fmt_vid_cap, h, fw_vidioc_g_fmt_vid_cap]
    · left
      simp [fw_vidioc_try_fmt_vid_cap, h]
  · intro nbuffers nplanes sizes
    rw [hg]
    simp [fw_vb2_queue_setup, to_u32, U32_MOD, fw_fmt_width, fw_fmt_height, fw_fmt_depth]

/-! ## Module start-up: properties -/

/-- C8, as stated, fails: when `video_device_alloc` returns NULL, the parent
device and the buffer queue have been acquired, in that order, and `fw_init`
releases the parent device first and the queue second, which is the order of
acquisition, not its reverse. -/
theorem fw_init_reverse_order_counterexample :
    (fw_init 0 false 0).1 = -ENOMEM
      ∧ acquired (fw_init 0 false 0).2 = [resource.parent_dev, resource.queue]
      ∧ released (fw_init 0 false 0).2 = [resource.parent_dev, resource.queue]
      ∧ released (fw_init 0 false 0).2 ≠ (acquired (fw_init 0 false 0).2).reverse := by
  decide

/-- C8, amended: for every outcome of `v4l2_device_register`,
`video_device_alloc` and `video_register_device_no_warn`, `fw_init` returns 0
exactly when all three succeeded (0, a non-NULL pointer, a non-negative value)
and then releases nothing; otherwise it returns one non-zero error (the
registration's error, `-ENOMEM` when the allocation fails, the video
registration's error) and releases every resource acquired so far, and only
those, each once, in the fixed order video device, parent device, buffer
queue. -/
theorem fw_init_unwind (register_res : Int) (alloc_non_null : Bool)
    (video_register_res : Int) :
    ((fw_init register_res alloc_non_null video_register_res).1 = 0
        ↔ (register_res = 0 ∧ alloc_non_null = true ∧ 0 ≤ video_register_res))
      ∧ (fw_init register_res alloc_non_null video_register_res).1
          = (if register_res ≠ 0 then register_res
             else if alloc_non_null = false then -ENOMEM
             else if video_register_res < 0 then video_register_res
             else 0)
      ∧ released (fw_init register_res alloc_non_null video_register_res).2
          = (if (fw_init register_res alloc_non_null video_register_res).1 = 0 then []
             else [resource.video_dev, resource.parent_dev, resource.queue].filter
               (fun r => decide
                 (r ∈ acquired (fw_init register_res alloc_non_null video_register_res).2)))
      ∧ List.Perm (released (fw_init register_res alloc_non_null video_register_res).2)
          (if (fw_init register_res alloc_non_null video_register_res).1 = 0 then []
           else acquired (fw_init register_res alloc_non_null video_register_res).2) := by
  by_cases h1 : register_res = 0
  · subst h1
    cases alloc_non_null with
    | false =>
      refine ⟨by simp [fw_init, ENOMEM], by simp [fw_init], ?_, ?_⟩
      · simp [fw_init, ENOMEM, released, acquired]
      · simp [fw_init, ENOMEM, released, acquired]
    | true =>
      by_cases h3 : video_register_res < 0
      · have hne : video_register_res ≠ 0 := by omega
        refine ⟨?_, by simp [fw_init, h3], ?_, ?_⟩
        · simp [fw_init, h3, hne]
        · simp [fw_init, h3, hne, released, acquired]
        · have hperm : List.Perm [resource.video_dev, resource.parent_dev, resource.queue]
              [resource.parent_dev, resource.queue, resource.video_dev] := by decide
          simpa [fw_init, h3, hne, released, acquired] using hperm
      · refine ⟨?_, by simp [fw_init, h3], ?_, ?_⟩
        · simp [fw_init, h3]
          omega
        · simp [fw_init, h3, released]
        · simp [fw_init, h3, released]
  · refine ⟨by simp [fw_init, h1], by simp [fw_init, h1], ?_, ?_⟩
    · simp [fw_init, h1, released, acquired]
    · simp [fw_init, h1, released, acquired]

end FakeWebcam
